import Mathlib

/-!
Verification of the Hospital Appointment System API (src/hospital_api.py).

The service keeps all state in an in-memory Python dict `APPOINTMENTS`.
We embed that dict as an association list with Python-dict semantics:
setting an existing key overwrites its value in place, setting a fresh key
appends it.  Randomness (`random.randint`, `random.choice`) is modelled by
explicit oracle arguments: `random.randint(1000, 9999)` becomes
`1000 + n % 9000` for an arbitrary oracle value `n` (every outcome of the
Python call is `1000 + n % 9000` for some `n`, and every `n` yields a legal
outcome), and `random.choice(lst)` becomes `lst.getD (i % lst.length) ""`
for an arbitrary oracle index `i`.  Each endpoint takes the registry and
returns the (possibly updated) registry together with either a response or
an error, mirroring the fact that a raised `HTTPException` leaves the
module-level `APPOINTMENTS` untouched.  Python `float` amounts are
modelled as rationals.
-/

namespace HospitalApi

/-- Membership test of a key in an association list, Python `k in d`. -/
def hasKey {α : Type} : List (String × α) → String → Bool
  | [], _ => false
  | p :: t, k => p.1 == k || hasKey t k

/-- Lookup of a key in an association list, Python `d[k]` (first hit). -/
def dictGet {α : Type} : List (String × α) → String → Option α
  | [], _ => none
  | p :: t, k => if p.1 == k then some p.2 else dictGet t k

/-- Overwrite every entry carrying key `k` with value `v`. -/
def setAll {α : Type} : List (String × α) → String → α → List (String × α)
  | [], _, _ => []
  | p :: t, k, v => (if p.1 == k then (k, v) else p) :: setAll t k v

/-- Python `d[k] = v`: overwrite in place when the key exists, append otherwise. -/
def dictSet {α : Type} (d : List (String × α)) (k : String) (v : α) :
    List (String × α) :=
  if hasKey d k then setAll d k v else d ++ [(k, v)]

/-- ALLOWED_PATIENTS from hospital_api.py. -/
def ALLOWED_PATIENTS : List String := ["P001", "P002", "P003", "P004"]

/-- A doctor directory entry: display name and specialty. -/
structure Doctor where
  name : String
  specialty : String
deriving DecidableEq, Repr

/-- ALLOWED_DOCTORS from hospital_api.py. -/
def ALLOWED_DOCTORS : List (String × Doctor) :=
  [("D101", ⟨"Dr. Alice", "Cardiologist"⟩),
   ("D102", ⟨"Dr. Bob", "Dermatologist"⟩),
   ("D103", ⟨"Dr. Clara", "Neurologist"⟩),
   ("D104", ⟨"Dr. David", "Orthopedic"⟩)]

/-- An appointment record as stored in APPOINTMENTS. -/
structure Appointment where
  patient_id : String
  doctor_id : String
  date : String
  slot : String
deriving DecidableEq, Repr

/-- The mutable appointment store, Python dict APPOINTMENTS. -/
abbrev Registry := List (String × Appointment)

/-- The two error kinds raised by the endpoints: HTTP 404 and HTTP 400. -/
inductive ApiError where
  | NotFound (detail : String)
  | InvalidArgument (detail : String)
deriving DecidableEq, Repr

/-- The booking slot candidate list from book_appointment. -/
def bookingSlots : List String := ["10:00 AM", "11:30 AM", "2:00 PM", "4:00 PM"]

/-- The reschedule slot candidate list from reschedule_appointment. -/
def rescheduleSlots : List String := ["9:30 AM", "12:00 PM", "3:00 PM", "5:30 PM"]

/-- Successful response body of /book-appointment/. -/
structure BookResponse where
  message : String
  appointment_id : String
  patient_id : String
  doctor_id : String
  date : String
  slot : String
deriving DecidableEq, Repr

/-- book_appointment from hospital_api.py.  `n` is the randint oracle,
`i` the choice oracle. -/
def book_appointment (apps : Registry) (patient_id doctor_id date : String)
    (n i : Nat) : Registry × Except ApiError BookResponse :=
  if !ALLOWED_PATIENTS.contains patient_id then
    (apps, .error (.NotFound "Patient ID not found."))
  else if !hasKey ALLOWED_DOCTORS doctor_id then
    (apps, .error (.NotFound "Doctor ID not found."))
  else
    let appointment_id := "A" ++ toString (1000 + n % 9000)
    let slot := bookingSlots.getD (i % bookingSlots.length) ""
    let appointment_date := date
    let apps' := dictSet apps appointment_id
      ⟨patient_id, doctor_id, appointment_date, slot⟩
    (apps', .ok ⟨"Appointment booked successfully!", appointment_id,
                 patient_id, doctor_id, appointment_date, slot⟩)

/-- Successful response body of /reschedule-appointment/. -/
structure RescheduleResponse where
  message : String
  appointment_id : String
  new_date : String
  new_slot : String
deriving DecidableEq, Repr

/-- reschedule_appointment from hospital_api.py.  `j` is the choice oracle. -/
def reschedule_appointment (apps : Registry) (appointment_id new_date : String)
    (j : Nat) : Registry × Except ApiError RescheduleResponse :=
  match dictGet apps appointment_id with
  | none => (apps, .error (.NotFound "Appointment not found."))
  | some rec =>
    let new_slot := rescheduleSlots.getD (j % rescheduleSlots.length) ""
    let apps' := dictSet apps appointment_id
      { rec with date := new_date, slot := new_slot }
    (apps', .ok ⟨"Appointment rescheduled successfully!", appointment_id,
                 new_date, new_slot⟩)

/-- Successful response body of /pay-consultation/. -/
structure PaymentResponse where
  message : String
  patient_id : String
  amount_paid : ℚ
  transaction_id : String
deriving DecidableEq, Repr

/-- pay_consultation from hospital_api.py.  `m` is the randint oracle.
The function body never touches APPOINTMENTS, so the registry passes
through unchanged. -/
def pay_consultation (apps : Registry) (patient_id : String) (amount : ℚ)
    (m : Nat) : Registry × Except ApiError PaymentResponse :=
  if !ALLOWED_PATIENTS.contains patient_id then
    (apps, .error (.NotFound "Patient ID not found."))
  else if amount ≤ 0 then
    (apps, .error (.InvalidArgument "Payment amount must be greater than zero."))
  else
    let transaction_id := "T" ++ toString (100000 + m % 900000)
    (apps, .ok ⟨"Payment successful!", patient_id, amount, transaction_id⟩)

/-- One entry of the available_doctors list returned by view_doctors. -/
structure DoctorInfo where
  doctor_id : String
  name : String
  specialty : String
deriving DecidableEq, Repr

/-- Response of /view-doctors/: either a no-doctors message or the list. -/
inductive ViewDoctorsResponse where
  | message (text : String)
  | available_doctors (doctors : List DoctorInfo)
deriving DecidableEq, Repr

/-- Python str.lower(): lower-case every character of the string. -/
def strLower (s : String) : String := ⟨s.data.map Char.toLower⟩

/-- The list comprehension inside view_doctors: doctors of the directory
whose specialty matches the input case-insensitively. -/
def matchingDoctors (specialty : String) : List DoctorInfo :=
  ALLOWED_DOCTORS.filterMap fun p =>
    if strLower p.2.specialty == strLower specialty then
      some ⟨p.1, p.2.name, p.2.specialty⟩
    else none

/-- view_doctors from hospital_api.py. -/
def view_doctors (specialty : String) : ViewDoctorsResponse :=
  let doctors := matchingDoctors specialty
  if doctors.isEmpty then
    .message ("No doctors available for specialty: " ++ specialty)
  else
    .available_doctors doctors

/-! ### Association-list lemmas -/

theorem length_setAll {α : Type} (d : List (String × α)) (k : String) (v : α) :
    (setAll d k v).length = d.length := by
  induction d with
  | nil => rfl
  | cons p t ih => simp [setAll, ih]

theorem dictGet_setAll_self {α : Type} (d : List (String × α)) (k : String)
    (v : α) (h : hasKey d k = true) : dictGet (setAll d k v) k = some v := by
  induction d with
  | nil => simp [hasKey] at h
  | cons p t ih =>
    by_cases hp : p.1 == k
    · simp [setAll, hp, dictGet]
    · simp [hasKey, hp] at h
      simp [setAll, hp, dictGet, ih h]

theorem dictGet_setAll_ne {α : Type} (d : List (String × α)) (k k' : String)
    (v : α) (h : k' ≠ k) : dictGet (setAll d k v) k' = dictGet d k' := by
  induction d with
  | nil => rfl
  | cons p t ih =>
    by_cases hp : p.1 == k
    · have hpk : p.1 = k := by simpa using hp
      have hk : (k == k') = false := by
        simp [beq_iff_eq]
        exact fun he => h he.symm
      have hpk' : (p.1 == k') = false := by
        simp [hpk, beq_iff_eq]
        exact fun he => h he.symm
      simp [setAll, hp, dictGet, hk, hpk', ih]
    · simp [setAll, hp, dictGet, ih]

theorem dictGet_append_self {α : Type} (d : List (String × α)) (k : String)
    (v : α) (h : hasKey d k = false) :
    dictGet (d ++ [(k, v)]) k = some v := by
  induction d with
  | nil => simp [dictGet]
  | cons p t ih =>
    simp [hasKey] at h
    simp [dictGet, h.1, ih h.2]

theorem dictGet_append_ne {α : Type} (d : List (String × α)) (k k' : String)
    (v : α) (h : k' ≠ k) : dictGet (d ++ [(k, v)]) k' = dictGet d k' := by
  induction d with
  | nil =>
    have hk : (k == k') = false := by
      simp [beq_iff_eq]
      exact fun he => h he.symm
    simp [dictGet, hk]
  | cons p t ih =>
    by_cases hp : p.1 == k'
    · simp [dictGet, hp]
    · simp [dictGet, hp, ih]

theorem dictGet_dictSet_self {α : Type} (d : List (String × α)) (k : String)
    (v : α) : dictGet (dictSet d k v) k = some v := by
  unfold dictSet
  by_cases h : hasKey d k
  · simp [h, dictGet_setAll_self d k v h]
  · simp at h
    simp [h, dictGet_append_self d k v h]

theorem dictGet_dictSet_ne {α : Type} (d : List (String × α)) (k k' : String)
    (v : α) (h : k' ≠ k) : dictGet (dictSet d k v) k' = dictGet d k' := by
  unfold dictSet
  by_cases hk : hasKey d k
  · simp [hk, dictGet_setAll_ne d k k' v h]
  · simp at hk
    simp [hk, dictGet_append_ne d k k' v h]

theorem length_dictSet {α : Type} (d : List (String × α)) (k : String)
    (v : α) :
    (dictSet d k v).length =
      if hasKey d k then d.length else d.length + 1 := by
  unfold dictSet
  by_cases h : hasKey d k
  · simp [h, length_setAll]
  · simp at h
    simp [h]

theorem hasKey_of_dictGet_some {α : Type} (d : List (String × α))
    (k : String) (v : α) (h : dictGet d k = some v) : hasKey d k = true := by
  induction d with
  | nil => simp [dictGet] at h
  | cons p t ih =>
    by_cases hp : p.1 == k
    · simp [hasKey, hp]
    · simp [dictGet, hp] at h
      simp [hasKey, hp, ih h]

theorem getD_mod_mem_booking (i : Nat) :
    bookingSlots.getD (i % bookingSlots.length) "" ∈ bookingSlots := by
  have h : i % 4 = 0 ∨ i % 4 = 1 ∨ i % 4 = 2 ∨ i % 4 = 3 := by omega
  have hl : bookingSlots.length = 4 := rfl
  rw [hl]
  rcases h with h | h | h | h <;> rw [h] <;> decide

theorem getD_mod_mem_reschedule (j : Nat) :
    rescheduleSlots.getD (j % rescheduleSlots.length) "" ∈ rescheduleSlots := by
  have h : j % 4 = 0 ∨ j % 4 = 1 ∨ j % 4 = 2 ∨ j % 4 = 3 := by omega
  have hl : rescheduleSlots.length = 4 := rfl
  rw [hl]
  rcases h with h | h | h | h <;> rw [h] <;> decide

/-! ### Claim theorems -/

/-- A registry already holding the appointment id A1234. -/
def regWithA1234 : Registry :=
  [("A1234", ⟨"P001", "D101", "2024-01-01", "10:00 AM"⟩)]

/-- C1: counterexample.  Booking with valid ids on a registry that already
holds the id the generator draws (oracle 234 gives A1234) succeeds, yet the
registry size stays 1 instead of growing by one: the record is overwritten. -/
theorem C1_counterexample :
    (book_appointment regWithA1234 "P001" "D101" "2024-05-01" 234 0).2 =
      .ok ⟨"Appointment booked successfully!", "A1234", "P001", "D101",
           "2024-05-01", "10:00 AM"⟩ ∧
    (book_appointment regWithA1234 "P001" "D101" "2024-05-01" 234 0).1.length = 1 ∧
    regWithA1234.length = 1 :=
  ⟨rfl, rfl, rfl⟩

/-- C1 (amended): a successful book call grows the registry by exactly one
when the generated appointment id is not already a key, and leaves the size
unchanged (overwriting the record) when it is. -/
theorem C1_theorem (apps : Registry) (pid did date : String) (n i : Nat)
    (hp : pid ∈ ALLOWED_PATIENTS)
    (hd : hasKey ALLOWED_DOCTORS did = true) :
    (book_appointment apps pid did date n i).2 =
      .ok ⟨"Appointment booked successfully!", "A" ++ toString (1000 + n % 9000),
           pid, did, date, bookingSlots.getD (i % bookingSlots.length) ""⟩ ∧
    (book_appointment apps pid did date n i).1.length =
      (if hasKey apps ("A" ++ toString (1000 + n % 9000)) then apps.length
       else apps.length + 1) := by
  constructor
  · simp [book_appointment, hp, hd]
  · have hb : (book_appointment apps pid did date n i).1 =
        dictSet apps ("A" ++ toString (1000 + n % 9000))
          ⟨pid, did, date, bookingSlots.getD (i % bookingSlots.length) ""⟩ := by
      simp [book_appointment, hp, hd]
    rw [hb, length_dictSet]

/-- C1 witness: the amended statement at a concrete input. -/
theorem C1_theorem_witness :
    "P001" ∈ ALLOWED_PATIENTS ∧
    hasKey ALLOWED_DOCTORS "D101" = true ∧
    (book_appointment [] "P001" "D101" "2024-05-01" 0 0).1.length =
      (if hasKey ([] : Registry) ("A" ++ toString (1000 + 0 % 9000)) then
        ([] : Registry).length
       else ([] : Registry).length + 1) :=
  ⟨by decide, by decide,
   (C1_theorem [] "P001" "D101" "2024-05-01" 0 0 (by decide) (by decide)).2⟩

/-- The registry produced by booking P001 with D101 from an empty registry
under oracle draw 0 (appointment id A1000). -/
def bookedOnce : Registry :=
  [("A1000", ⟨"P001", "D101", "2024-05-01", "10:00 AM"⟩)]

/-- C2: counterexample.  Two distinct successful book operations in the same
process lifetime (oracle draw 0 both times) return the same appointment id
A1000, and the second booking overwrites the first record: the registry still
has one entry, now holding P002's appointment. -/
theorem C2_counterexample :
    book_appointment [] "P001" "D101" "2024-05-01" 0 0 =
      (bookedOnce,
       .ok ⟨"Appointment booked successfully!", "A1000", "P001", "D101",
            "2024-05-01", "10:00 AM"⟩) ∧
    book_appointment bookedOnce "P002" "D102" "2024-06-01" 0 1 =
      ([("A1000", ⟨"P002", "D102", "2024-06-01", "11:30 AM"⟩)],
       .ok ⟨"Appointment booked successfully!", "A1000", "P002", "D102",
            "2024-06-01", "11:30 AM"⟩) :=
  ⟨rfl, rfl⟩

/-- C2 (amended): appointment ids are not guaranteed unique; a booking
avoids overwriting existing records only when its generated id is fresh.
Under that freshness assumption the booking adds exactly one record, stores
it under the generated id, and leaves every other key's binding intact. -/
theorem C2_theorem (apps : Registry) (pid did date : String) (n i : Nat)
    (hp : pid ∈ ALLOWED_PATIENTS)
    (hd : hasKey ALLOWED_DOCTORS did = true)
    (hfresh : hasKey apps ("A" ++ toString (1000 + n % 9000)) = false) :
    (book_appointment apps pid did date n i).1.length = apps.length + 1 ∧
    dictGet (book_appointment apps pid did date n i).1
        ("A" ++ toString (1000 + n % 9000)) =
      some ⟨pid, did, date, bookingSlots.getD (i % bookingSlots.length) ""⟩ ∧
    ∀ k, k ≠ "A" ++ toString (1000 + n % 9000) →
      dictGet (book_appointment apps pid did date n i).1 k = dictGet apps k := by
  have hb : (book_appointment apps pid did date n i).1 =
      dictSet apps ("A" ++ toString (1000 + n % 9000))
        ⟨pid, did, date, bookingSlots.getD (i % bookingSlots.length) ""⟩ := by
    simp [book_appointment, hp, hd]
  refine ⟨?_, ?_, ?_⟩
  · rw [hb, length_dictSet, hfresh]
    simp
  · rw [hb, dictGet_dictSet_self]
  · intro k hk
    rw [hb, dictGet_dictSet_ne _ _ _ _ hk]

/-- C2 witness: the amended statement at a concrete input. -/
theorem C2_theorem_witness :
    "P001" ∈ ALLOWED_PATIENTS ∧
    hasKey ALLOWED_DOCTORS "D101" = true ∧
    hasKey ([] : Registry) ("A" ++ toString (1000 + 0 % 9000)) = false ∧
    (book_appointment [] "P001" "D101" "2024-05-01" 0 0).1.length =
      ([] : Registry).length + 1 :=
  ⟨by decide, by decide, by decide,
   (C2_theorem [] "P001" "D101" "2024-05-01" 0 0 (by decide) (by decide)
     (by decide)).1⟩

/-- C3: book with a valid patient and doctor succeeds, returns an
appointment id of the form A followed by a number in [1000, 9999], a slot
from the booking candidate list, the caller's date verbatim, and afterwards
the registry maps the returned id to exactly that record. -/
theorem C3_theorem (apps : Registry) (pid did date : String) (n i : Nat)
    (hp : pid ∈ ALLOWED_PATIENTS)
    (hd : hasKey ALLOWED_DOCTORS did = true) :
    (book_appointment apps pid did date n i).2 =
      .ok ⟨"Appointment booked successfully!", "A" ++ toString (1000 + n % 9000),
           pid, did, date, bookingSlots.getD (i % bookingSlots.length) ""⟩ ∧
    1000 ≤ 1000 + n % 9000 ∧ 1000 + n % 9000 ≤ 9999 ∧
    bookingSlots.getD (i % bookingSlots.length) "" ∈ bookingSlots ∧
    dictGet (book_appointment apps pid did date n i).1
        ("A" ++ toString (1000 + n % 9000)) =
      some ⟨pid, did, date, bookingSlots.getD (i % bookingSlots.length) ""⟩ := by
  have hb : (book_appointment apps pid did date n i).1 =
      dictSet apps ("A" ++ toString (1000 + n % 9000))
        ⟨pid, did, date, bookingSlots.getD (i % bookingSlots.length) ""⟩ := by
    simp [book_appointment, hp, hd]
  refine ⟨?_, by omega, by omega, getD_mod_mem_booking i, ?_⟩
  · simp [book_appointment, hp, hd]
  · rw [hb, dictGet_dictSet_self]

/-- C3 witness: the statement at a concrete input. -/
theorem C3_theorem_witness :
    "P001" ∈ ALLOWED_PATIENTS ∧
    hasKey ALLOWED_DOCTORS "D101" = true ∧
    (book_appointment [] "P001" "D101" "2024-05-01" 0 0).2 =
      .ok ⟨"Appointment booked successfully!", "A" ++ toString (1000 + 0 % 9000),
           "P001", "D101", "2024-05-01",
           bookingSlots.getD (0 % bookingSlots.length) ""⟩ :=
  ⟨by decide, by decide,
   (C3_theorem [] "P001" "D101" "2024-05-01" 0 0 (by decide) (by decide)).1⟩

/-- C4: book with an unknown patient or doctor fails with NotFound and
returns the registry exactly unchanged. -/
theorem C4_theorem (apps : Registry) (pid did date : String) (n i : Nat)
    (h : pid ∉ ALLOWED_PATIENTS ∨
         hasKey ALLOWED_DOCTORS did = false) :
    (book_appointment apps pid did date n i).1 = apps ∧
    ((book_appointment apps pid did date n i).2 =
        .error (.NotFound "Patient ID not found.") ∨
     (book_appointment apps pid did date n i).2 =
        .error (.NotFound "Doctor ID not found.")) := by
  by_cases hcp : pid ∈ ALLOWED_PATIENTS
  · have hdd : hasKey ALLOWED_DOCTORS did = false := by
      rcases h with h | h
      · exact absurd hcp h
      · exact h
    exact ⟨by simp [book_appointment, hcp, hdd],
           .inr (by simp [book_appointment, hcp, hdd])⟩
  · exact ⟨by simp [book_appointment, hcp],
           .inl (by simp [book_appointment, hcp])⟩

/-- C4 witness: the statement at a concrete input (unknown patient P999). -/
theorem C4_theorem_witness :
    ("P999" ∉ ALLOWED_PATIENTS ∨
     hasKey ALLOWED_DOCTORS "D101" = false) ∧
    ((book_appointment [] "P999" "D101" "2024-05-01" 0 0).1 = ([] : Registry) ∧
     ((book_appointment [] "P999" "D101" "2024-05-01" 0 0).2 =
        .error (.NotFound "Patient ID not found.") ∨
      (book_appointment [] "P999" "D101" "2024-05-01" 0 0).2 =
        .error (.NotFound "Doctor ID not found."))) :=
  ⟨.inl (by decide),
   C4_theorem [] "P999" "D101" "2024-05-01" 0 0 (.inl (by decide))⟩

/-- C5: rescheduling an existing appointment succeeds with a slot from the
reschedule candidate list (disjoint from the booking list), overwrites only
the date and slot of that one record (patient and doctor unchanged), leaves
every other record's binding intact, and keeps the registry size. -/
theorem C5_theorem (apps : Registry) (aid nd : String) (j : Nat)
    (rec : Appointment) (h : dictGet apps aid = some rec) :
    (reschedule_appointment apps aid nd j).2 =
      .ok ⟨"Appointment rescheduled successfully!", aid, nd,
           rescheduleSlots.getD (j % rescheduleSlots.length) ""⟩ ∧
    rescheduleSlots.getD (j % rescheduleSlots.length) "" ∈ rescheduleSlots ∧
    (∀ s ∈ rescheduleSlots, s ∉ bookingSlots) ∧
    dictGet (reschedule_appointment apps aid nd j).1 aid =
      some ⟨rec.patient_id, rec.doctor_id, nd,
            rescheduleSlots.getD (j % rescheduleSlots.length) ""⟩ ∧
    (∀ k, k ≠ aid →
      dictGet (reschedule_appointment apps aid nd j).1 k = dictGet apps k) ∧
    (reschedule_appointment apps aid nd j).1.length = apps.length := by
  have hb : (reschedule_appointment apps aid nd j).1 =
      dictSet apps aid { rec with date := nd, slot := rescheduleSlots.getD (j % rescheduleSlots.length) "" } := by
    simp [reschedule_appointment, h]
  have hk : hasKey apps aid = true := hasKey_of_dictGet_some apps aid rec h
  refine ⟨?_, getD_mod_mem_reschedule j, by decide, ?_, ?_, ?_⟩
  · simp [reschedule_appointment, h]
  · rw [hb, dictGet_dictSet_self]
  · intro k hne
    rw [hb, dictGet_dictSet_ne _ _ _ _ hne]
  · rw [hb, length_dictSet, hk]
    simp

/-- C5 witness: the statement at a concrete input. -/
theorem C5_theorem_witness :
    dictGet bookedOnce "A1000" =
      some ⟨"P001", "D101", "2024-05-01", "10:00 AM"⟩ ∧
    (reschedule_appointment bookedOnce "A1000" "2024-06-01" 0).2 =
      .ok ⟨"Appointment rescheduled successfully!", "A1000", "2024-06-01",
           rescheduleSlots.getD (0 % rescheduleSlots.length) ""⟩ :=
  ⟨rfl,
   (C5_theorem bookedOnce "A1000" "2024-06-01" 0
     ⟨"P001", "D101", "2024-05-01", "10:00 AM"⟩ rfl).1⟩

/-- C6: rescheduling an unknown appointment id fails with NotFound and
returns the registry exactly unchanged. -/
theorem C6_theorem (apps : Registry) (aid nd : String) (j : Nat)
    (h : dictGet apps aid = none) :
    reschedule_appointment apps aid nd j =
      (apps, .error (.NotFound "Appointment not found.")) := by
  simp [reschedule_appointment, h]

/-- C6 witness: the statement at a concrete input. -/
theorem C6_theorem_witness :
    dictGet ([] : Registry) "A1000" = none ∧
    reschedule_appointment [] "A1000" "2024-06-01" 0 =
      (([] : Registry), .error (.NotFound "Appointment not found.")) :=
  ⟨rfl, C6_theorem [] "A1000" "2024-06-01" 0 rfl⟩

/-- C7: record_payment fails with NotFound exactly when the patient is
unknown, fails with InvalidArgument for every amount ≤ 0 when the patient is
valid, succeeds with amount_paid equal to the input amount for every valid
patient and amount > 0, and never touches the appointment registry. -/
theorem C7_theorem (apps : Registry) (pid : String) (amount : ℚ) (m : Nat) :
    (pay_consultation apps pid amount m).1 = apps ∧
    (pid ∉ ALLOWED_PATIENTS →
      (pay_consultation apps pid amount m).2 =
        .error (.NotFound "Patient ID not found.")) ∧
    (pid ∈ ALLOWED_PATIENTS → amount ≤ 0 →
      (pay_consultation apps pid amount m).2 =
        .error (.InvalidArgument "Payment amount must be greater than zero.")) ∧
    (pid ∈ ALLOWED_PATIENTS → 0 < amount →
      (pay_consultation apps pid amount m).2 =
        .ok ⟨"Payment successful!", pid, amount,
             "T" ++ toString (100000 + m % 900000)⟩) := by
  refine ⟨?_, ?_, ?_, ?_⟩
  · by_cases hcp : pid ∈ ALLOWED_PATIENTS
    · by_cases ha : amount ≤ 0 <;> simp [pay_consultation, hcp, ha]
    · simp [pay_consultation, hcp]
  · intro hcp
    simp [pay_consultation, hcp]
  · intro hcp ha
    simp [pay_consultation, hcp, ha]
  · intro hcp ha
    have ha2 : ¬ amount ≤ 0 := not_le.mpr ha
    simp [pay_consultation, hcp, ha2]

/-- C7 witness: the statement at a concrete input. -/
theorem C7_theorem_witness :
    "P001" ∈ ALLOWED_PATIENTS ∧ (0 : ℚ) < 5 ∧
    (pay_consultation [] "P001" 5 0).2 =
      .ok ⟨"Payment successful!", "P001", 5,
           "T" ++ toString (100000 + 0 % 900000)⟩ :=
  ⟨by decide, by norm_num,
   (C7_theorem [] "P001" 5 0).2.2.2 (by decide) (by norm_num)⟩

/-- C8: counterexample.  "UNICORN" is a case transformation of "unicorn",
yet the two view_doctors results differ: when no doctor matches, the
no-doctors message embeds the caller's input verbatim, so the full result is
not invariant under case transformation of the input. -/
theorem C8_counterexample :
    strLower "UNICORN" = strLower "unicorn" ∧
    view_doctors "unicorn" =
      .message "No doctors available for specialty: unicorn" ∧
    view_doctors "UNICORN" =
      .message "No doctors available for specialty: UNICORN" ∧
    view_doctors "unicorn" ≠ view_doctors "UNICORN" := by
  refine ⟨by decide, rfl, rfl, by decide⟩

/-- C8 (amended): view_doctors computes exactly the directory entries whose
specialty matches the input case-insensitively; that matched list is
invariant under case transformation of the input, and when at least one
doctor matches the whole result is invariant too; when none matches the
result is a normal message (not an error) that embeds the caller's input
verbatim, so only the message text varies with the input's case. -/
theorem C8_theorem (s t : String) (h : strLower s = strLower t) :
    matchingDoctors s = matchingDoctors t ∧
    (matchingDoctors s ≠ [] → view_doctors s = view_doctors t) ∧
    view_doctors s =
      (if (matchingDoctors s).isEmpty then
        .message ("No doctors available for specialty: " ++ s)
      else .available_doctors (matchingDoctors s)) := by
  have h1 : matchingDoctors s = matchingDoctors t := by
    simp only [matchingDoctors, h]
  refine ⟨h1, ?_, rfl⟩
  intro hne
  have he : (matchingDoctors s).isEmpty = false := by
    cases hml : matchingDoctors s with
    | nil => exact absurd hml hne
    | cons a l => rfl
  simp [view_doctors, ← h1, he]

/-- C8 witness: the amended statement at a concrete input. -/
theorem C8_theorem_witness :
    strLower "Cardiologist" = strLower "CARDIOLOGIST" ∧
    matchingDoctors "Cardiologist" ≠ [] ∧
    view_doctors "Cardiologist" = view_doctors "CARDIOLOGIST" :=
  ⟨by decide, by decide,
   ( C8_theorem "Cardiologist" "CARDIOLOGIST" (by decide)).2.1 (by decide)⟩

/-- C9: book checks the patient identifier first: when both the patient and
the doctor are unknown, the failure is the NotFound error for the patient. -/
theorem C9_theorem (apps : Registry) (pid did date : String) (n i : Nat)
    (hp : pid ∉ ALLOWED_PATIENTS)
    ( _hd : hasKey ALLOWED_DOCTORS did = false) :
    (book_appointment apps pid did date n i).2 =
      .error (.NotFound "Patient ID not found.") := by
  simp [book_appointment, hp]

/-- C9 witness: the statement at a concrete input. -/
theorem C9_theorem_witness :
    "P999" ∉ ALLOWED_PATIENTS ∧
    hasKey ALLOWED_DOCTORS "D999" = false ∧
    (book_appointment [] "P999" "D999" "2024-05-01" 0 0).2 =
      .error (.NotFound "Patient ID not found.") :=
  ⟨by decide, by decide,
   C9_theorem [] "P999" "D999" "2024-05-01" 0 0 (by decide) (by decide)⟩

/-- C10: record_payment checks the patient identifier before the amount:
an unknown patient with a non-positive amount yields NotFound, not
InvalidArgument. -/
theorem C10_theorem (apps : Registry) (pid : String) (amount : ℚ) (m : Nat)
    (hp : pid ∉ ALLOWED_PATIENTS) ( _ha : amount ≤ 0) :
    (pay_consultation apps pid amount m).2 =
      .error (.NotFound "Patient ID not found.") := by
  simp [pay_consultation, hp]

/-- C10 witness: the statement at a concrete input. -/
theorem C10_theorem_witness :
    "P999" ∉ ALLOWED_PATIENTS ∧ (-5 : ℚ) ≤ 0 ∧
    (pay_consultation [] "P999" (-5) 0).2 =
      .error (.NotFound "Patient ID not found.") :=
  ⟨by decide, by norm_num,
   C10_theorem [] "P999" (-5) 0 (by decide) (by norm_num)⟩

end HospitalApi
